import Mathlib

/-!
Verification of the HNAP session client in
`custom_components/binary_sensor/dlink.py`.

The Python source is shallowly embedded below.  Pure helpers (`_hmac`, the
action-name extraction in `device_actions`) become Lean functions; the
stateful client (`HNAPClient`) becomes explicit state passing over a
`ClientState` record, with the SOAP transport modelled as an oracle
(`Env.transport`, indexed by the number of transport invocations performed
so far) and the wall clock as `Env.clock`.  The mutual recursion between
`call` and `login` is made total with a fuel parameter; running out of fuel
is reported as a distinct outcome (`Res.fuelOut`), so possible
non-termination of the source is observable as `fuelOut` for every fuel.

`hmac.new(key, msg).hexdigest()` from the Python standard library (default
digest: MD5) is implemented bit-for-bit: MD5 per RFC 1321 and HMAC per
RFC 2104 over UTF-8 encoded strings, with known-answer tests below.
-/

namespace DlinkHNAP

/-! ## MD5 (RFC 1321), HMAC (RFC 2104), and `_hmac` from the source -/

/-- 2^32, the word modulus of MD5. -/
def M32 : Nat := 4294967296

/-- Truncate to a 32-bit word. -/
def u32 (n : Nat) : Nat := n % M32

/-- Bitwise complement on 32-bit words. -/
def not32 (x : Nat) : Nat := Nat.xor x 4294967295

/-- Left-rotation of a 32-bit word by `n` bits (for `x < 2^32`, `n ≤ 32`). -/
def rotl32 (x n : Nat) : Nat := ((x <<< n) % M32) ||| (x >>> (32 - n))

/-- The per-round shift amounts of MD5. -/
def md5S : List Nat :=
  [7, 12, 17, 22, 7, 12, 17, 22, 7, 12, 17, 22, 7, 12, 17, 22,
   5, 9, 14, 20, 5, 9, 14, 20, 5, 9, 14, 20, 5, 9, 14, 20,
   4, 11, 16, 23, 4, 11, 16, 23, 4, 11, 16, 23, 4, 11, 16, 23,
   6, 10, 15, 21, 6, 10, 15, 21, 6, 10, 15, 21, 6, 10, 15, 21]

/-- The sine-derived additive constants of MD5. -/
def md5K : List Nat :=
  [3614090360, 3905402710, 606105819, 3250441966,
   4118548399, 1200080426, 2821735955, 4249261313,
   1770035416, 2336552879, 4294925233, 2304563134,
   1804603682, 4254626195, 2792965006, 1236535329,
   4129170786, 3225465664, 643717713, 3921069994,
   3593408605, 38016083, 3634488961, 3889429448,
   568446438, 3275163606, 4107603335, 1163531501,
   2850285829, 4243563512, 1735328473, 2368359562,
   4294588738, 2272392833, 1839030562, 4259657740,
   2763975236, 1272893353, 4139469664, 3200236656,
   681279174, 3936430074, 3572445317, 76029189,
   3654602809, 3873151461, 530742520, 3299628645,
   4096336452, 1126891415, 2878612391, 4237533241,
   1700485571, 2399980690, 4293915773, 2240044497,
   1873313359, 4264355552, 2734768916, 1309151649,
   4149444226, 3174756917, 718787259, 3951481745]

/-- The round function of MD5 for round index `i`. -/
def md5F (i b c d : Nat) : Nat :=
  if i < 16 then (b &&& c) ||| (not32 b &&& d)
  else if i < 32 then (d &&& b) ||| (not32 d &&& c)
  else if i < 48 then Nat.xor (Nat.xor b c) d
  else Nat.xor c (b ||| not32 d)

/-- The message-word schedule of MD5. -/
def md5G (i : Nat) : Nat :=
  if i < 16 then i
  else if i < 32 then (5 * i + 1) % 16
  else if i < 48 then (3 * i + 5) % 16
  else (7 * i) % 16

/-- One of the 64 MD5 operations, acting on the state `(a, b, c, d)`. -/
def md5Op (m : List Nat) (st : Nat × Nat × Nat × Nat) (i : Nat) :
    Nat × Nat × Nat × Nat :=
  let a := st.1
  let b := st.2.1
  let c := st.2.2.1
  let d := st.2.2.2
  let f := u32 (md5F i b c d + a + md5K.getD i 0 + m.getD (md5G i) 0)
  (d, u32 (b + rotl32 f (md5S.getD i 0)), b, c)

/-- Process one 16-word chunk, adding the result into the running state. -/
def md5Chunk (m : List Nat) (st : Nat × Nat × Nat × Nat) :
    Nat × Nat × Nat × Nat :=
  let r := (List.range 64).foldl (md5Op m) st
  (u32 (st.1 + r.1), u32 (st.2.1 + r.2.1),
   u32 (st.2.2.1 + r.2.2.1), u32 (st.2.2.2 + r.2.2.2))

/-- A little-endian 32-bit word from up to four bytes. -/
def leWord (b : List Nat) : Nat :=
  b.getD 0 0 + 256 * b.getD 1 0 + 65536 * b.getD 2 0 + 16777216 * b.getD 3 0

/-- The sixteen little-endian words of a 64-byte chunk. -/
def chunkWords (bs : List Nat) : List Nat :=
  (List.range 16).map (fun j => leWord ((bs.drop (4 * j)).take 4))

/-- Split a (padded) byte string into 64-byte chunks. -/
def chunksOf64 (bs : List Nat) : List (List Nat) :=
  (List.range (bs.length / 64)).map (fun j => (bs.drop (64 * j)).take 64)

/-- MD5 padding: a `0x80` byte, zeros to 56 mod 64, then the bit length as
a 64-bit little-endian quantity. -/
def md5Pad (bs : List Nat) : List Nat :=
  let r := (bs.length + 1) % 64
  let k := (120 - r) % 64
  bs ++ [128] ++ List.replicate k 0 ++
    (List.range 8).map (fun i =>
      (((bs.length * 8) % 18446744073709551616) >>> (8 * i)) &&& 255)

/-- The final MD5 state over a whole message. -/
def md5Quad (bs : List Nat) : Nat × Nat × Nat × Nat :=
  (chunksOf64 (md5Pad bs)).foldl (fun st ch => md5Chunk (chunkWords ch) st)
    (1732584193, 4023233417, 2562383102, 271733878)

/-- Serialize one 32-bit word as four little-endian bytes. -/
def wordLE (w : Nat) : List Nat :=
  [w &&& 255, (w >>> 8) &&& 255, (w >>> 16) &&& 255, (w >>> 24) &&& 255]

/-- The 16-byte digest from a final MD5 state. -/
def digestBytes (q : Nat × Nat × Nat × Nat) : List Nat :=
  wordLE q.1 ++ wordLE q.2.1 ++ wordLE q.2.2.1 ++ wordLE q.2.2.2

/-- MD5 of a byte string. -/
def md5 (bs : List Nat) : List Nat := digestBytes (md5Quad bs)

/-- HMAC-MD5 (RFC 2104, block size 64), as `hmac.new(key, msg)` computes it. -/
def hmacMd5 (key msg : List Nat) : List Nat :=
  let k1 := if 64 < key.length then md5 key else key
  let k2 := k1 ++ List.replicate (64 - k1.length) 0
  let ipad := k2.map (fun b => Nat.xor b 54)
  let opad := k2.map (fun b => Nat.xor b 92)
  md5 (opad ++ md5 (ipad ++ msg))

/-- UTF-8 encoding of one character, as Python's `str.encode` produces it. -/
def utf8Char (c : Char) : List Nat :=
  let n := c.toNat
  if n < 128 then [n]
  else if n < 2048 then [192 ||| (n >>> 6), 128 ||| (n &&& 63)]
  else if n < 65536 then
    [224 ||| (n >>> 12), 128 ||| ((n >>> 6) &&& 63), 128 ||| (n &&& 63)]
  else
    [240 ||| (n >>> 18), 128 ||| ((n >>> 12) &&& 63),
     128 ||| ((n >>> 6) &&& 63), 128 ||| (n &&& 63)]

/-- UTF-8 encoding of a string (`s.encode('utf-8')`). -/
def utf8 (s : String) : List Nat := (s.data.map utf8Char).flatten

/-- One lowercase hexadecimal digit. -/
def hexChar (n : Nat) : Char :=
  Char.ofNat (if n < 10 then 48 + n else 87 + n)

/-- Lowercase hexadecimal characters of a byte string (`.hexdigest()`). -/
def bytesToHex : List Nat → List Char
  | [] => []
  | b :: bs => hexChar (b / 16) :: hexChar (b % 16) :: bytesToHex bs

/-- `bytes.hexdigest()`: the lowercase hex string of a byte string. -/
def hexdigest (bs : List Nat) : String := ⟨bytesToHex bs⟩

/-- Python `str.upper()` restricted to ASCII, as it acts on hex digests. -/
def upperString (s : String) : String := ⟨s.data.map Char.toUpper⟩

/-- Python `str.lower()` restricted to ASCII, as the source applies it to
the `LoginResult` field. -/
def lowerString (s : String) : String := ⟨s.data.map Char.toLower⟩

/-- Source `_hmac` (dlink.py lines 20-22):
`hmac.new(key.encode('utf-8'), message.encode('utf-8')).hexdigest().upper()`. -/
def _hmac (key message : String) : String :=
  upperString (hexdigest (hmacMd5 (utf8 key) (utf8 message)))

/-! ## Action-name extraction (`device_actions`, dlink.py lines 83-85)

`_extract(action)` is `url[url.rfind('/')+1:]`: the substring after the
last `'/'`, or the whole string when there is none (`rfind` returns -1). -/

/-- Index of the last occurrence of `c0`, as Python `str.rfind` computes it
(`none` plays the role of -1). -/
def rfindChar (c0 : Char) : List Char → Option Nat
  | [] => none
  | c :: cs =>
    match rfindChar c0 cs with
    | some j => some (j + 1)
    | none => if c = c0 then some 0 else none

/-- `_extract` from `device_actions`: `url[url.rfind('/')+1:]`. -/
def extract (url : String) : String :=
  match rfindChar '/' url.data with
  | none => url
  | some i => ⟨url.data.drop (i + 1)⟩

/-! ## Data model of the client

`Response` models the parsed SOAP response object (`SimpleXMLElement`)
at the fields the client reads: `'body' in res` (true for an HTML page,
false for a SOAP payload), `LoginResult`, `LoginResponse.Challenge`,
`LoginResponse.PublicKey`, `LoginResponse.Cookie`, and the stringified
children of `SOAPActions`. -/

structure Response where
  hasBody : Bool
  loginResult : String
  challenge : String
  publicKey : String
  cookie : String
  soapActions : List String
  deriving Repr, DecidableEq

/-- The exception classes the source catches around a transport call:
`AttributeError`, `xml.parsers.expat.ExpatError`, `urllib.error.HTTPError`,
`urllib.error.URLError` (dlink.py lines 114-121). -/
inductive TErr
  | attrError | expatError | httpError | urlError
  deriving Repr, DecidableEq

/-- Outcome of one transport invocation: a parsed response, or one of the
four exception classes above. -/
inductive TResult
  | ok (r : Response)
  | err (e : TErr)
  deriving Repr, DecidableEq

/-- An exception propagating out of `call`/`login`: an
`AuthenticationError`, or an uncaught transport exception. -/
inductive Err
  | authError (msg : String)
  | transportError (e : TErr)
  deriving Repr, DecidableEq

/-- Result of running a client operation: a value, a raised exception, or
exhaustion of the recursion fuel (observable possible non-termination). -/
inductive Res (α : Type)
  | ok (v : α)
  | err (e : Err)
  | fuelOut
  deriving Repr, DecidableEq

/-- The mutable attributes of `HNAPClient` (dlink.py lines 34-45), plus the
immutable credentials. -/
structure ClientState where
  username : String
  password : String
  logged_in : Bool
  actions : Option (List String)
  private_key : Option String
  cookie : Option String
  auth_token : Option String
  timestamp : Option Nat
  deriving Repr, DecidableEq

/-- Record of one transport invocation: the action name, the keyword
parameters, the two optional security headers attached by `_client()`, and
the invocation index. -/
structure CallRec where
  method : String
  params : List (String × String)
  cookieHeader : Option String
  authHeader : Option String
  idx : Nat
  deriving Repr, DecidableEq

/-- Full instrumented state: client attributes, number of transport
invocations so far, the trace of transport invocations, and the number of
times `login()` has been entered. -/
structure St where
  client : ClientState
  count : Nat
  calls : List CallRec
  logins : Nat
  deriving Repr, DecidableEq

/-- The environment: the transport oracle (outcome of the n-th transport
invocation) and the clock (`int(datetime.now().timestamp())` at the n-th
invocation). -/
structure Env where
  transport : Nat → TResult
  clock : Nat → Nat

/-- Python truthiness of an optional string attribute
(`None` and `''` are falsy). -/
def strTruthy (o : Option String) : Bool :=
  match o with
  | none => false
  | some s => if s = "" then false else true

/-- Python truthiness of the `actions` attribute
(`None` and `[]` are falsy). -/
def listTruthy (o : Option (List String)) : Bool :=
  match o with
  | none => false
  | some l => if l = [] then false else true

/-- `ACTION_BASE_URL` (dlink.py line 17). -/
def ACTION_BASE_URL : String := "http://purenetworks.com/HNAP1/"

/-- Keyword arguments of the first-stage login call (dlink.py lines 51-53). -/
def loginRequestParams (u : String) : List (String × String) :=
  [("Action", "request"), ("Username", u), ("LoginPassword", ""),
   ("Captcha", "")]

/-- Keyword arguments of the second-stage login call (dlink.py lines 66-68). -/
def loginLoginParams (u pwHash : String) : List (String × String) :=
  [("Action", "login"), ("Username", u), ("LoginPassword", pwHash),
   ("Captcha", "")]

/-- `_update_nauth_token` (dlink.py lines 125-135): a no-op when
`self._private_key` is falsy, otherwise stores the current timestamp and
`_hmac(private_key, '{ts}"{ACTION_BASE_URL}{action}"')`. -/
def update_nauth_token (env : Env) (action : String) (st : St) : St :=
  match st.client.private_key with
  | none => st
  | some k =>
    if k = "" then st
    else
      let ts := env.clock st.count
      let tok := _hmac k
        (Nat.repr ts ++ "\"" ++ ACTION_BASE_URL ++ action ++ "\"")
      { st with client :=
          { st.client with timestamp := some ts, auth_token := some tok } }

/-- The header dictionary built by `_client()` (dlink.py lines 137-150):
`Cookie: uid=<cookie>` when `self._cookie` is truthy and
`HNAP_AUTH: <token> <timestamp>` when `self._auth_token` is truthy. -/
def headersOf (c : ClientState) : Option String × Option String :=
  ((match c.cookie with
    | none => none
    | some ck => if ck = "" then none else some ("uid=" ++ ck)),
   (match c.auth_token with
    | none => none
    | some tok =>
      if tok = "" then none
      else some (tok ++ " " ++ Nat.repr (c.timestamp.getD 0))))

/-- `_call_method` (dlink.py lines 97-101): refresh the auth token, build a
`SoapClient` with the current headers, and invoke the transport.  The
invocation is appended to the trace. -/
def call_method (env : Env) (method : String)
    (params : List (String × String)) (st0 : St) : TResult × St :=
  let st := update_nauth_token env method st0
  let hs := headersOf st.client
  let r : CallRec :=
    { method := method
      params := params
      cookieHeader := hs.1
      authHeader := hs.2
      idx := st.count }
  (env.transport st.count,
   { st with count := st.count + 1, calls := st.calls ++ [r] })

/-- Sequencing: continue on a value, propagate a raised exception or fuel
exhaustion. -/
def andThen {α β : Type} (x : Res α × St) (f : α → St → Res β × St) :
    Res β × St :=
  match x.1 with
  | .ok v => f v x.2
  | .err e => (.err e, x.2)
  | .fuelOut => (.fuelOut, x.2)

/-- Sequencing under `login`'s `try`: an `ExpatError` propagating out of the
inner call is converted to `AuthenticationError('Bad response from device')`
(dlink.py lines 76-77); every other exception propagates unchanged. -/
def tryExpat {α β : Type} (x : Res α × St) (f : α → St → Res β × St) :
    Res β × St :=
  match x.1 with
  | .ok v => f v x.2
  | .err (.transportError .expatError) =>
    (.err (.authError "Bad response from device"), x.2)
  | .err e => (.err e, x.2)
  | .fuelOut => (.fuelOut, x.2)

/-- Lift the second attempt's transport outcome to the result of `call`
(dlink.py line 123): a response is returned, an exception propagates. -/
def liftT : TResult → Res Response
  | .ok r => .ok r
  | .err e => .err (.transportError e)

mutual

/-- `HNAPClient.call` (dlink.py lines 94-123).  Pre-login when the private
key is falsy and the method is not `'Login'`; one transport attempt; on one
of the four caught exception classes, or on a response containing a `body`
element (an HTML page), re-run `login()` and re-issue the call once,
returning the second attempt's outcome unconditionally. -/
def callA (fuel : Nat) (env : Env) (method : String)
    (params : List (String × String)) (st : St) : Res Response × St :=
  if _h0 : fuel = 0 then (.fuelOut, st)
  else
    let pre : Res Unit × St :=
      if strTruthy st.client.private_key = false ∧ method ≠ "Login" then
        login (fuel - 1) env st
      else (.ok (), st)
    andThen pre (fun _ st1 =>
      let retry : St → Res Response × St := fun st2 =>
        andThen (login (fuel - 1) env st2) (fun _ st3 =>
          let second := call_method env method params st3
          (liftT second.1, second.2))
      let first := call_method env method params st1
      match first.1 with
      | .ok resp =>
        if resp.hasBody = false then (.ok resp, first.2)
        else retry first.2
      | .err _ => retry first.2)
termination_by fuel
decreasing_by
  all_goals omega

/-- `HNAPClient.login` (dlink.py lines 47-79).  Two-stage handshake: a
`Login` request obtaining challenge, public key and cookie; derivation and
storage of the private key; a second `Login` call with the hashed
password; `AuthenticationError` on a non-`'success'` result; action
discovery when the `actions` cache is falsy; `ExpatError` inside the `try`
block surfaces as `AuthenticationError('Bad response from device')`. -/
def login (fuel : Nat) (env : Env) (st0 : St) : Res Unit × St :=
  if h0 : fuel = 0 then (.fuelOut, st0)
  else
    let st := { st0 with
      logins := st0.logins + 1
      client := { st0.client with logged_in := false } }
    andThen
      (callA (fuel - 1) env "Login"
        (loginRequestParams st.client.username) st)
      (fun resp st1 =>
        let challenge := resp.challenge
        let public_key := resp.publicKey
        let st2 := { st1 with client :=
          { st1.client with cookie := some resp.cookie } }
        let pkey := _hmac (public_key ++ st2.client.password) challenge
        let st3 := { st2 with client :=
          { st2.client with private_key := some pkey } }
        let password := _hmac pkey challenge
        tryExpat
          (callA (fuel - 1) env "Login"
            (loginLoginParams st3.client.username password) st3)
          (fun resp2 st4 =>
            if lowerString resp2.loginResult ≠ "success" then
              (.err (.authError "Incorrect username or password"), st4)
            else if listTruthy st4.client.actions = false then
              tryExpat (device_actions (fuel - 1) env st4)
                (fun acts st5 =>
                  (.ok (), { st5 with client :=
                    { st5.client with
                      actions := some acts
                      logged_in := true } }))
            else
              (.ok (), { st4 with client :=
                { st4.client with logged_in := true } })))
termination_by fuel
decreasing_by
  all_goals omega

/-- `HNAPClient.device_actions` (dlink.py lines 81-87): a
`GetDeviceSettings` call, mapping `_extract` over the stringified children
of `SOAPActions`. -/
def device_actions (fuel : Nat) (env : Env) (st : St) :
    Res (List String) × St :=
  if h0 : fuel = 0 then (.fuelOut, st)
  else
    andThen (callA (fuel - 1) env "GetDeviceSettings" [] st)
      (fun resp st1 => (.ok (resp.soapActions.map extract), st1))
termination_by fuel
decreasing_by
  all_goals omega

end

/-! ## Scenario environments and states -/

/-- A fresh client, as `HNAPClient.__init__` leaves it (dlink.py 34-45). -/
def freshSt (u pw : String) : St :=
  { client := { username := u
                password := pw
                logged_in := false
                actions := none
                private_key := none
                cookie := none
                auth_token := none
                timestamp := none }
    count := 0
    calls := []
    logins := 0 }

/-- A client holding session secrets `k` (private key) and `ck` (cookie)
and a populated actions cache, with a fresh trace. -/
def authSt (u pw k ck : String) (acts : List String) : St :=
  { client := { username := u
                password := pw
                logged_in := true
                actions := some acts
                private_key := some k
                cookie := some ck
                auth_token := none
                timestamp := none }
    count := 0
    calls := []
    logins := 0 }

/-- A transport script answering the first five invocations with
`a, b, c, d, e` (later ones repeat `e`), under a constant clock `t`. -/
def env5 (a b c d e : TResult) (t : Nat) : Env :=
  { transport := fun n =>
      if n = 0 then a else if n = 1 then b else if n = 2 then c
      else if n = 3 then d else e
    clock := fun _ => t }

/-- A transport that fails every invocation with a parse error
(`xml.parsers.expat.ExpatError`). -/
def badEnv : Env :=
  { transport := fun _ => .err .expatError, clock := fun _ => 0 }

/-- A placeholder transport outcome for script positions a scenario never
reaches. -/
def pad : TResult := .err .urlError

/-- Compact constructor for concrete `Response` values in scenarios. -/
def mkResp (body : Bool) (lr ch pk ck : String) (sa : List String) :
    Response :=
  { hasBody := body, loginResult := lr, challenge := ch, publicKey := pk,
    cookie := ck, soapActions := sa }

/-- The value of the `HNAP_AUTH` header for private key `key`, action
`action` and timestamp `t`: the `_hmac` token, one space, the decimal
timestamp (dlink.py lines 130-133 and 143-144). -/
def authTok (key action : String) (t : Nat) : String :=
  _hmac key (Nat.repr t ++ "\"" ++ ACTION_BASE_URL ++ action ++ "\"")
    ++ " " ++ Nat.repr t

/-! ## Known-answer tests for the hash layer -/

set_option maxRecDepth 100000

example : hexdigest (md5 (utf8 "")) = "d41d8cd98f00b204e9800998ecf8427e" := by
  decide

example : hexdigest (md5 (utf8 "abc")) =
    "900150983cd24fb0d6963f7d28e17f72" := by
  decide

example :
    hexdigest (hmacMd5 (utf8 "key")
      (utf8 "The quick brown fox jumps over the lazy dog")) =
    "80070713463e7749b90c2dc24911e275" := by
  decide

/-! ## Helper lemmas -/

/-- An MD5 digest always has 16 bytes. -/
theorem md5_length (bs : List Nat) : (md5 bs).length = 16 := by
  simp [md5, digestBytes, wordLE]

/-- Hex encoding doubles the length. -/
theorem bytesToHex_length (bs : List Nat) :
    (bytesToHex bs).length = 2 * bs.length := by
  induction bs with
  | nil => rfl
  | cons b bs ih => simp [bytesToHex, ih]; omega

/-- An uppercase hex HMAC-MD5 digest is never the empty string. -/
theorem upperHexHmac_ne (x y : List Nat) :
    upperString (hexdigest (hmacMd5 x y)) ≠ "" := by
  intro h
  have h2 := congrArg (fun s => s.data.length) h
  simp [upperString, hexdigest, bytesToHex_length, md5_length, hmacMd5] at h2

/-- `_hmac` never returns the empty string (it is a 32-character hex
digest), so a stored private key or auth token is always truthy. -/
theorem _hmac_ne (k m : String) : _hmac k m ≠ "" :=
  upperHexHmac_ne (utf8 k) (utf8 m)

/-- Truthiness of a freshly computed `_hmac` value. -/
theorem strTruthy_hmac (k m : String) :
    strTruthy (some (_hmac k m)) = true := by
  simp [strTruthy, _hmac_ne k m]

/-- `rfindChar` returns `none` exactly when the character is absent
(Python `rfind` returning -1). -/
theorem rfindChar_eq_none (c0 : Char) (l : List Char) :
    rfindChar c0 l = none ↔ c0 ∉ l := by
  induction l with
  | nil => simp [rfindChar]
  | cons c cs ih =>
    cases h : rfindChar c0 cs with
    | some j =>
      have hmem : c0 ∈ cs := by
        by_contra hn
        rw [ih.mpr hn] at h
        exact absurd h (by simp)
      simp [rfindChar, h, hmem]
    | none =>
      by_cases hc : c = c0
      · simp [rfindChar, h, hc]
      · simp [rfindChar, h, hc, ih.mp h, Ne.symm hc]

/-- `rfindChar` finds the index of the LAST occurrence: the prefix before
it has length `i` and the suffix after it is slash-free. -/
theorem rfindChar_spec (c0 : Char) (l : List Char) (i : Nat)
    (h : rfindChar c0 l = some i) :
    ∃ pre suf, l = pre ++ c0 :: suf ∧ pre.length = i ∧ c0 ∉ suf := by
  induction l generalizing i with
  | nil => simp [rfindChar] at h
  | cons c cs ih =>
    cases hcs : rfindChar c0 cs with
    | some j =>
      simp [rfindChar, hcs] at h
      obtain ⟨pre, suf, hl, hlen, hno⟩ := ih j hcs
      refine ⟨c :: pre, suf, ?_, ?_, hno⟩
      · simp [hl]
      · simp [hlen]; omega
    | none =>
      by_cases hc : c = c0
      · simp [rfindChar, hcs, hc] at h
        obtain rfl : i = 0 := by omega
        exact ⟨[], cs, by simp [hc], by simp,
          (rfindChar_eq_none c0 cs).mp hcs⟩
      · simp [rfindChar, hcs, hc] at h

/-- Dropping past the found index yields exactly the suffix. -/
theorem drop_after (pre suf : List Char) (c0 : Char) :
    (pre ++ c0 :: suf).drop (pre.length + 1) = suf := by
  have : pre ++ c0 :: suf = (pre ++ [c0]) ++ suf := by simp
  rw [this]
  have hl : pre.length + 1 = (pre ++ [c0]).length := by simp
  rw [hl, List.drop_left]

/-- When the string has no slash, `extract` is the identity. -/
theorem extract_no_slash (s : String) (h : '/' ∉ s.data) : extract s = s := by
  rw [extract, (rfindChar_eq_none '/' s.data).mpr h]

/-- When the string has a slash, `extract` returns the slash-free suffix
after the last slash. -/
theorem extract_last_slash (s : String) (h : '/' ∈ s.data) :
    ∃ pre, s.data = pre ++ '/' :: (extract s).data ∧
      '/' ∉ (extract s).data := by
  cases hf : rfindChar '/' s.data with
  | none => exact absurd ((rfindChar_eq_none '/' s.data).mp hf) (by simp [h])
  | some i =>
    obtain ⟨pre, suf, hl, hlen, hno⟩ := rfindChar_spec '/' s.data i hf
    refine ⟨pre, ?_, ?_⟩
    · rw [extract, hf]
      show s.data = pre ++ '/' :: (s.data.drop (i + 1))
      rw [hl, ← hlen, drop_after]
    · rw [extract, hf]
      show '/' ∉ (s.data.drop (i + 1))
      rw [hl, ← hlen, drop_after]
      exact hno

/-- Master lemma: a full `login()` run on a fresh client, against a
transport answering the two handshake stages and the discovery call.  The
first `Login` request carries no security headers; the private key stored
is `_hmac(publicKey + password, challenge)`; the cookie is taken from the
first-stage response; actions are discovered via `GetDeviceSettings`. -/
theorem login_fresh_run (u pw : String) (r1 r2 r3 : Response) (t : Nat)
    (hb1 : r1.hasBody = false) (hb2 : r2.hasBody = false)
    (hb3 : r3.hasBody = false) (hck : r1.cookie ≠ "")
    (hs : lowerString r2.loginResult = "success") :
    (login 8 (env5 (.ok r1) (.ok r2) (.ok r3) pad pad t)
        (freshSt u pw)).1 = .ok () ∧
    (login 8 (env5 (.ok r1) (.ok r2) (.ok r3) pad pad t)
        (freshSt u pw)).2.client.private_key =
      some (_hmac (r1.publicKey ++ pw) r1.challenge) ∧
    (login 8 (env5 (.ok r1) (.ok r2) (.ok r3) pad pad t)
        (freshSt u pw)).2.client.cookie = some r1.cookie ∧
    (login 8 (env5 (.ok r1) (.ok r2) (.ok r3) pad pad t)
        (freshSt u pw)).2.client.actions =
      some (r3.soapActions.map extract) ∧
    (login 8 (env5 (.ok r1) (.ok r2) (.ok r3) pad pad t)
        (freshSt u pw)).2.client.logged_in = true ∧
    (login 8 (env5 (.ok r1) (.ok r2) (.ok r3) pad pad t)
        (freshSt u pw)).2.logins = 1 ∧
    (login 8 (env5 (.ok r1) (.ok r2) (.ok r3) pad pad t)
        (freshSt u pw)).2.calls =
      [{ method := "Login"
         params := loginRequestParams u
         cookieHeader := none
         authHeader := none
         idx := 0 },
       { method := "Login"
         params := loginLoginParams u
           (_hmac (_hmac (r1.publicKey ++ pw) r1.challenge) r1.challenge)
         cookieHeader := some ("uid=" ++ r1.cookie)
         authHeader := some
           (authTok (_hmac (r1.publicKey ++ pw) r1.challenge) "Login" t)
         idx := 1 },
       { method := "GetDeviceSettings"
         params := []
         cookieHeader := some ("uid=" ++ r1.cookie)
         authHeader := some
           (authTok (_hmac (r1.publicKey ++ pw) r1.challenge)
             "GetDeviceSettings" t)
         idx := 2 }] := by
  simp [login, callA, device_actions, andThen, tryExpat, call_method,
    update_nauth_token, headersOf, env5, freshSt, strTruthy, listTruthy,
    liftT, authTok, hb1, hb2, hb3, hck, hs, _hmac_ne]

/-- Master lemma: `call(A, ps)` on a client holding session secrets
`k`/`c` and a populated actions cache, when the first transport attempt
raises one of the four caught exception classes and the re-login handshake
then succeeds.  The client re-logins exactly once, re-issues the identical
call once, and returns the second attempt's outcome; the stale secrets are
not cleared, so the re-login's initial `Login` request still carries the
stale `Cookie` and `HNAP_AUTH` headers; the actions cache is retained and
no `GetDeviceSettings` call is made. -/
theorem relogin_after_err (A : String) (ps : List (String × String))
    (e : TErr) (k c : String) (acts : List String) (r1 r2 : Response)
    (res2 : TResult) (t : Nat)
    (hk : k ≠ "") (hc : c ≠ "") (hacts : acts ≠ [])
    (hb1 : r1.hasBody = false) (hb2 : r2.hasBody = false)
    (hck : r1.cookie ≠ "") (hs : lowerString r2.loginResult = "success") :
    (callA 8 (env5 (.err e) (.ok r1) (.ok r2) res2 pad t) A ps
        (authSt "Admin" "pw" k c acts)).1 = liftT res2 ∧
    (callA 8 (env5 (.err e) (.ok r1) (.ok r2) res2 pad t) A ps
        (authSt "Admin" "pw" k c acts)).2.logins = 1 ∧
    (callA 8 (env5 (.err e) (.ok r1) (.ok r2) res2 pad t) A ps
        (authSt "Admin" "pw" k c acts)).2.client.actions = some acts ∧
    (callA 8 (env5 (.err e) (.ok r1) (.ok r2) res2 pad t) A ps
        (authSt "Admin" "pw" k c acts)).2.client.logged_in = true ∧
    (callA 8 (env5 (.err e) (.ok r1) (.ok r2) res2 pad t) A ps
        (authSt "Admin" "pw" k c acts)).2.calls =
      [{ method := A
         params := ps
         cookieHeader := some ("uid=" ++ c)
         authHeader := some (authTok k A t)
         idx := 0 },
       { method := "Login"
         params := loginRequestParams "Admin"
         cookieHeader := some ("uid=" ++ c)
         authHeader := some (authTok k "Login" t)
         idx := 1 },
       { method := "Login"
         params := loginLoginParams "Admin"
           (_hmac (_hmac (r1.publicKey ++ "pw") r1.challenge) r1.challenge)
         cookieHeader := some ("uid=" ++ r1.cookie)
         authHeader := some
           (authTok (_hmac (r1.publicKey ++ "pw") r1.challenge) "Login" t)
         idx := 2 },
       { method := A
         params := ps
         cookieHeader := some ("uid=" ++ r1.cookie)
         authHeader := some
           (authTok (_hmac (r1.publicKey ++ "pw") r1.challenge) A t)
         idx := 3 }] := by
  simp [callA, login, andThen, tryExpat, call_method, update_nauth_token,
    headersOf, env5, authSt, strTruthy, listTruthy, liftT, authTok,
    hk, hc, hacts, hb1, hb2, hck, hs, _hmac_ne]

/-- Master lemma: like `relogin_after_err`, but the first transport attempt
SUCCEEDS with a payload containing a `body` element (an HTML page).  The
source treats this exactly like a transport failure: re-login and one
re-issue, returning the second attempt's outcome rather than the payload. -/
theorem relogin_after_body (A : String) (ps : List (String × String))
    (rb : Response) (k c : String) (acts : List String) (r1 r2 : Response)
    (res2 : TResult) (t : Nat)
    (hbody : rb.hasBody = true)
    (hk : k ≠ "") (hc : c ≠ "") (hacts : acts ≠ [])
    (hb1 : r1.hasBody = false) (hb2 : r2.hasBody = false)
    (hck : r1.cookie ≠ "") (hs : lowerString r2.loginResult = "success") :
    (callA 8 (env5 (.ok rb) (.ok r1) (.ok r2) res2 pad t) A ps
        (authSt "Admin" "pw" k c acts)).1 = liftT res2 ∧
    (callA 8 (env5 (.ok rb) (.ok r1) (.ok r2) res2 pad t) A ps
        (authSt "Admin" "pw" k c acts)).2.logins = 1 ∧
    (callA 8 (env5 (.ok rb) (.ok r1) (.ok r2) res2 pad t) A ps
        (authSt "Admin" "pw" k c acts)).2.calls.map
          (fun cc => (cc.method, cc.params)) =
      [(A, ps), ("Login", loginRequestParams "Admin"),
       ("Login", loginLoginParams "Admin"
         (_hmac (_hmac (r1.publicKey ++ "pw") r1.challenge) r1.challenge)),
       (A, ps)] := by
  simp [callA, login, andThen, tryExpat, call_method, update_nauth_token,
    headersOf, env5, authSt, strTruthy, listTruthy, liftT, authTok,
    hk, hc, hacts, hbody, hb1, hb2, hck, hs, _hmac_ne]

/-! ## Claim theorems -/

/-- C4: the private key stored by a successful `login()` is the uppercase
hexadecimal encoding of HMAC-MD5 with key `publicKey ++ password` and
message `challenge`; and the computation is deterministic: a second login
run whose first-stage response carries the same public key and challenge,
with the same password, stores the same digest string. -/
theorem C4_private_key_formula (pw : String) (r1 r2 r3 : Response)
    (t : Nat) (hb1 : r1.hasBody = false) (hb2 : r2.hasBody = false)
    (hb3 : r3.hasBody = false) (hck : r1.cookie ≠ "")
    (hs : lowerString r2.loginResult = "success") :
    (login 8 (env5 (.ok r1) (.ok r2) (.ok r3) pad pad t)
        (freshSt "Admin" pw)).2.client.private_key =
      some (upperString (hexdigest (hmacMd5 (utf8 (r1.publicKey ++ pw))
        (utf8 r1.challenge)))) ∧
    (login 8 (env5 (.ok r1) (.ok r2) (.ok r3) pad pad t)
        (freshSt "Admin" pw)).1 = .ok () ∧
    (∀ (pw2 : String) (q1 q2 q3 : Response) (t2 : Nat),
      q1.hasBody = false → q2.hasBody = false → q3.hasBody = false →
      q1.cookie ≠ "" → lowerString q2.loginResult = "success" →
      q1.publicKey = r1.publicKey → q1.challenge = r1.challenge →
      pw2 = pw →
      (login 8 (env5 (.ok q1) (.ok q2) (.ok q3) pad pad t2)
          (freshSt "Admin" pw2)).2.client.private_key =
        (login 8 (env5 (.ok r1) (.ok r2) (.ok r3) pad pad t)
            (freshSt "Admin" pw)).2.client.private_key) := by
  have h := login_fresh_run "Admin" pw r1 r2 r3 t hb1 hb2 hb3 hck hs
  refine ⟨by simpa [_hmac] using h.2.1, h.1, ?_⟩
  intro pw2 q1 q2 q3 t2 g1 g2 g3 g4 g5 gpk gch gpw
  have h2 := login_fresh_run "Admin" pw2 q1 q2 q3 t2 g1 g2 g3 g4 g5
  rw [h2.2.1, h.2.1, gpk, gch, gpw]

/-- Witness for C4 at concrete inputs (the end-to-end scenario of the
spec: publicKey `XYZ`, challenge `abc123`, password `secret`). -/
theorem C4_private_key_formula_witness :
    (login 8 (env5 (.ok (mkResp false "" "abc123" "XYZ" "ck" []))
        (.ok (mkResp false "success" "" "" "" []))
        (.ok (mkResp false "" "" "" "" ["a/B"])) pad pad 7)
        (freshSt "Admin" "secret")).2.client.private_key =
      some (upperString (hexdigest (hmacMd5 (utf8 ("XYZ" ++ "secret"))
        (utf8 "abc123")))) ∧
    (login 8 (env5 (.ok (mkResp false "" "abc123" "XYZ" "ck" []))
        (.ok (mkResp false "success" "" "" "" []))
        (.ok (mkResp false "" "" "" "" ["a/B"])) pad pad 7)
        (freshSt "Admin" "secret")).1 = .ok () := by
  have h := C4_private_key_formula "secret"
    (mkResp false "" "abc123" "XYZ" "ck" [])
    (mkResp false "success" "" "" "" [])
    (mkResp false "" "" "" "" ["a/B"]) 7
    (by decide) (by decide) (by decide) (by decide) (by decide)
  exact ⟨h.1, h.2.1⟩

/-- C1: a `call(A, ps)` whose first transport attempt fails with one of the
four session-invalidation signals performs exactly one re-authentication
via `login()` (given the re-login handshake's own transport succeeding),
re-issues the identical call (same action, same params) exactly once, and
returns the second attempt's outcome — a success value is returned, a
failure propagates — with no further retry. -/
theorem C1_retry_exactly_once (A : String) (ps : List (String × String))
    (e : TErr) (r1 r2 : Response) (res2 : TResult) (t : Nat)
    (hb1 : r1.hasBody = false) (hb2 : r2.hasBody = false)
    (hck : r1.cookie ≠ "") (hs : lowerString r2.loginResult = "success") :
    (callA 8 (env5 (.err e) (.ok r1) (.ok r2) res2 pad t) A ps
        (authSt "Admin" "pw" "K" "C" ["X"])).1 = liftT res2 ∧
    (callA 8 (env5 (.err e) (.ok r1) (.ok r2) res2 pad t) A ps
        (authSt "Admin" "pw" "K" "C" ["X"])).2.logins = 1 ∧
    (callA 8 (env5 (.err e) (.ok r1) (.ok r2) res2 pad t) A ps
        (authSt "Admin" "pw" "K" "C" ["X"])).2.calls.map
          (fun cc => (cc.method, cc.params)) =
      [(A, ps), ("Login", loginRequestParams "Admin"),
       ("Login", loginLoginParams "Admin"
         (_hmac (_hmac (r1.publicKey ++ "pw") r1.challenge) r1.challenge)),
       (A, ps)] := by
  have h := relogin_after_err A ps e "K" "C" ["X"] r1 r2 res2 t
    (by decide) (by decide) (by decide) hb1 hb2 hck hs
  refine ⟨h.1, h.2.1, ?_⟩
  rw [h.2.2.2.2]
  simp

/-- Witness for C1 at concrete inputs: the first attempt times out, the
re-login succeeds, the re-issued call returns a fresh payload. -/
theorem C1_retry_exactly_once_witness :
    (callA 8 (env5 (.err .urlError) (.ok (mkResp false "" "ch" "pk" "ck" []))
        (.ok (mkResp false "success" "" "" "" []))
        (.ok (mkResp false "" "" "" "" ["g2"])) pad 7) "GetX" []
        (authSt "Admin" "pw" "K" "C" ["X"])).1 =
      liftT (.ok (mkResp false "" "" "" "" ["g2"])) ∧
    (callA 8 (env5 (.err .urlError) (.ok (mkResp false "" "ch" "pk" "ck" []))
        (.ok (mkResp false "success" "" "" "" []))
        (.ok (mkResp false "" "" "" "" ["g2"])) pad 7) "GetX" []
        (authSt "Admin" "pw" "K" "C" ["X"])).2.logins = 1 ∧
    (callA 8 (env5 (.err .urlError) (.ok (mkResp false "" "ch" "pk" "ck" []))
        (.ok (mkResp false "success" "" "" "" []))
        (.ok (mkResp false "" "" "" "" ["g2"])) pad 7) "GetX" []
        (authSt "Admin" "pw" "K" "C" ["X"])).2.calls.map
          (fun cc => (cc.method, cc.params)) =
      [("GetX", []), ("Login", loginRequestParams "Admin"),
       ("Login", loginLoginParams "Admin"
         (_hmac (_hmac ("pk" ++ "pw") "ch") "ch")),
       ("GetX", [])] :=
  C1_retry_exactly_once "GetX" [] .urlError
    (mkResp false "" "ch" "pk" "ck" [])
    (mkResp false "success" "" "" "" [])
    (.ok (mkResp false "" "" "" "" ["g2"])) 7
    (by decide) (by decide) (by decide) (by decide)

/-- C9: `call(A, ps)` on a client with no session secrets and `A` different
from `'Login'` performs `login()` before any transport attempt for `A`; if
the handshake fails at its second stage, one `AuthenticationError`
propagates to the caller and `A` is never issued to the transport. -/
theorem C9_fresh_client_prelogin (A : String) (ps : List (String × String))
    (r1 r2 : Response) (t : Nat)
    (hA : A ≠ "Login") (hb1 : r1.hasBody = false)
    (hb2 : r2.hasBody = false)
    (hs : lowerString r2.loginResult ≠ "success") :
    (callA 8 (env5 (.ok r1) (.ok r2) pad pad pad t) A ps
        (freshSt "Admin" "pw")).1 =
      .err (.authError "Incorrect username or password") ∧
    (callA 8 (env5 (.ok r1) (.ok r2) pad pad pad t) A ps
        (freshSt "Admin" "pw")).2.logins = 1 ∧
    (callA 8 (env5 (.ok r1) (.ok r2) pad pad pad t) A ps
        (freshSt "Admin" "pw")).2.calls.map (fun cc => cc.method) =
      ["Login", "Login"] := by
  simp [callA, login, andThen, tryExpat, call_method, update_nauth_token,
    headersOf, env5, freshSt, strTruthy, listTruthy, liftT,
    hA, hb1, hb2, hs, _hmac_ne]

/-- Witness for C9 at concrete inputs: wrong credentials rejected at the
handshake's second stage. -/
theorem C9_fresh_client_prelogin_witness :
    (callA 8 (env5 (.ok (mkResp false "" "ch" "pk" "ck" []))
        (.ok (mkResp false "ERROR" "" "" "" [])) pad pad pad 7) "GetX" []
        (freshSt "Admin" "pw")).1 =
      .err (.authError "Incorrect username or password") ∧
    (callA 8 (env5 (.ok (mkResp false "" "ch" "pk" "ck" []))
        (.ok (mkResp false "ERROR" "" "" "" [])) pad pad pad 7) "GetX" []
        (freshSt "Admin" "pw")).2.logins = 1 ∧
    (callA 8 (env5 (.ok (mkResp false "" "ch" "pk" "ck" []))
        (.ok (mkResp false "ERROR" "" "" "" [])) pad pad pad 7) "GetX" []
        (freshSt "Admin" "pw")).2.calls.map (fun cc => cc.method) =
      ["Login", "Login"] :=
  C9_fresh_client_prelogin "GetX" []
    (mkResp false "" "ch" "pk" "ck" [])
    (mkResp false "ERROR" "" "" "" []) 7
    (by decide) (by decide) (by decide) (by decide)

/-- C5: for every action name `A` issued while session secrets are present
(truthy private key `k` and cookie `c`), the transport invocation carries
exactly the two security headers: the cookie header `uid=<c>` and the auth
header `<token> <timestamp>`, where the token is
`_hmac(k, '<ts>"' + ACTION_BASE_URL + A + '"')` — i.e. the uppercase hex
HMAC-MD5 with key `k` over the decimal timestamp, a double quote, the base
action URL, the action name, and a closing double quote. -/
theorem C5_per_call_headers (A : String) (ps : List (String × String))
    (k c : String) (t : Nat) (r : Response)
    (hk : k ≠ "") (hc : c ≠ "") (hb : r.hasBody = false) :
    (callA 8 (env5 (.ok r) pad pad pad pad t) A ps
        (authSt "Admin" "pw" k c ["X"])).1 = .ok r ∧
    (callA 8 (env5 (.ok r) pad pad pad pad t) A ps
        (authSt "Admin" "pw" k c ["X"])).2.calls =
      [{ method := A
         params := ps
         cookieHeader := some ("uid=" ++ c)
         authHeader := some
           (upperString (hexdigest (hmacMd5 (utf8 k)
              (utf8 (Nat.repr t ++ "\"" ++ ACTION_BASE_URL ++ A ++ "\""))))
            ++ " " ++ Nat.repr t)
         idx := 0 }] ∧
    (callA 8 (env5 (.ok r) pad pad pad pad t) A ps
        (authSt "Admin" "pw" k c ["X"])).2.logins = 0 := by
  simp [callA, andThen, call_method, update_nauth_token, headersOf, env5,
    authSt, strTruthy, hk, hc, hb, liftT, _hmac, upperHexHmac_ne]

/-- Witness for C5 at concrete inputs. -/
theorem C5_per_call_headers_witness :
    (callA 8 (env5 (.ok (mkResp false "" "" "" "" [])) pad pad pad pad 7)
        "GetDeviceSettings" [] (authSt "Admin" "pw" "K" "C" ["X"])).1 =
      .ok (mkResp false "" "" "" "" []) ∧
    (callA 8 (env5 (.ok (mkResp false "" "" "" "" [])) pad pad pad pad 7)
        "GetDeviceSettings" [] (authSt "Admin" "pw" "K" "C" ["X"])).2.calls =
      [{ method := "GetDeviceSettings"
         params := []
         cookieHeader := some ("uid=" ++ "C")
         authHeader := some
           (upperString (hexdigest (hmacMd5 (utf8 "K")
              (utf8 (Nat.repr 7 ++ "\"" ++ ACTION_BASE_URL ++
                "GetDeviceSettings" ++ "\""))))
            ++ " " ++ Nat.repr 7)
         idx := 0 }] ∧
    (callA 8 (env5 (.ok (mkResp false "" "" "" "" [])) pad pad pad pad 7)
        "GetDeviceSettings" [] (authSt "Admin" "pw" "K" "C" ["X"])).2.logins
      = 0 :=
  C5_per_call_headers "GetDeviceSettings" [] "K" "C" 7
    (mkResp false "" "" "" "" []) (by decide) (by decide) (by decide)

/-- C2 counterexample: a transport attempt that SUCCEEDS with an
HTML-shaped payload (one containing a `body` element).  The claim says the
payload is returned as-is with no re-authentication and no retry; the code
instead treats it as a session-invalidation signal: it re-logins once,
re-issues the call, and returns the SECOND attempt's payload. -/
theorem C2_counterexample :
    (callA 8 (env5 (.ok (mkResp true "" "" "" "" []))
        (.ok (mkResp false "" "ch" "pk" "ck" []))
        (.ok (mkResp false "success" "" "" "" []))
        (.ok (mkResp false "" "" "" "" ["g2"])) pad 7) "GetX" []
        (authSt "Admin" "pw" "K" "C" ["X"])).1 ≠
      .ok (mkResp true "" "" "" "" []) ∧
    (callA 8 (env5 (.ok (mkResp true "" "" "" "" []))
        (.ok (mkResp false "" "ch" "pk" "ck" []))
        (.ok (mkResp false "success" "" "" "" []))
        (.ok (mkResp false "" "" "" "" ["g2"])) pad 7) "GetX" []
        (authSt "Admin" "pw" "K" "C" ["X"])).1 =
      .ok (mkResp false "" "" "" "" ["g2"]) ∧
    (callA 8 (env5 (.ok (mkResp true "" "" "" "" []))
        (.ok (mkResp false "" "ch" "pk" "ck" []))
        (.ok (mkResp false "success" "" "" "" []))
        (.ok (mkResp false "" "" "" "" ["g2"])) pad 7) "GetX" []
        (authSt "Admin" "pw" "K" "C" ["X"])).2.logins = 1 ∧
    (callA 8 (env5 (.ok (mkResp true "" "" "" "" []))
        (.ok (mkResp false "" "ch" "pk" "ck" []))
        (.ok (mkResp false "success" "" "" "" []))
        (.ok (mkResp false "" "" "" "" ["g2"])) pad 7) "GetX" []
        (authSt "Admin" "pw" "K" "C" ["X"])).2.calls.map
          (fun cc => (cc.method, cc.params)) =
      [("GetX", []), ("Login", loginRequestParams "Admin"),
       ("Login", loginLoginParams "Admin"
         (_hmac (_hmac ("pk" ++ "pw") "ch") "ch")),
       ("GetX", [])] := by
  have h := relogin_after_body "GetX" [] (mkResp true "" "" "" "" [])
    "K" "C" ["X"] (mkResp false "" "ch" "pk" "ck" [])
    (mkResp false "success" "" "" "" [])
    (.ok (mkResp false "" "" "" "" ["g2"])) 7
    (by decide) (by decide) (by decide) (by decide) (by decide)
    (by decide) (by decide) (by decide)
  refine ⟨?_, ?_, h.2.1, h.2.2⟩
  · rw [h.1]; decide
  · rw [h.1]; rfl

/-- C2 amended: a successful payload WITHOUT a `body` element is returned
as-is, with no re-authentication and no retry; a successful payload WITH a
`body` element (an HTML page) is treated like a session-invalidation
signal: the client re-authenticates once, re-issues the call once, and
returns the second attempt's outcome instead of the payload. -/
theorem C2_amended_body_triggers_relogin (A : String)
    (ps : List (String × String)) (rg rb : Response) (k c : String)
    (acts : List String) (r1 r2 : Response) (res2 : TResult) (t : Nat)
    (hk : k ≠ "") (hc : c ≠ "") (hacts : acts ≠ [])
    (hg : rg.hasBody = false) (hbody : rb.hasBody = true)
    (hb1 : r1.hasBody = false) (hb2 : r2.hasBody = false)
    (hck : r1.cookie ≠ "") (hs : lowerString r2.loginResult = "success") :
    (callA 8 (env5 (.ok rg) pad pad pad pad t) A ps
        (authSt "Admin" "pw" k c acts)).1 = .ok rg ∧
    (callA 8 (env5 (.ok rg) pad pad pad pad t) A ps
        (authSt "Admin" "pw" k c acts)).2.logins = 0 ∧
    (callA 8 (env5 (.ok rg) pad pad pad pad t) A ps
        (authSt "Admin" "pw" k c acts)).2.calls.map
          (fun cc => cc.method) = [A] ∧
    (callA 8 (env5 (.ok rb) (.ok r1) (.ok r2) res2 pad t) A ps
        (authSt "Admin" "pw" k c acts)).1 = liftT res2 ∧
    (callA 8 (env5 (.ok rb) (.ok r1) (.ok r2) res2 pad t) A ps
        (authSt "Admin" "pw" k c acts)).2.logins = 1 ∧
    (callA 8 (env5 (.ok rb) (.ok r1) (.ok r2) res2 pad t) A ps
        (authSt "Admin" "pw" k c acts)).2.calls.map
          (fun cc => (cc.method, cc.params)) =
      [(A, ps), ("Login", loginRequestParams "Admin"),
       ("Login", loginLoginParams "Admin"
         (_hmac (_hmac (r1.publicKey ++ "pw") r1.challenge) r1.challenge)),
       (A, ps)] := by
  have h := relogin_after_body A ps rb k c acts r1 r2 res2 t
    hbody hk hc hacts hb1 hb2 hck hs
  refine ⟨?_, ?_, ?_, h.1, h.2.1, h.2.2⟩
  all_goals
    simp [callA, andThen, call_method, update_nauth_token, headersOf,
      env5, authSt, strTruthy, hk, hc, hg, liftT, _hmac_ne]

/-- Witness for the amended C2 at concrete inputs. -/
theorem C2_amended_body_triggers_relogin_witness :
    (callA 8 (env5 (.ok (mkResp false "" "" "" "" ["soft"])) pad pad pad pad
        7) "GetX" [] (authSt "Admin" "pw" "K" "C" ["X"])).1 =
      .ok (mkResp false "" "" "" "" ["soft"]) ∧
    (callA 8 (env5 (.ok (mkResp false "" "" "" "" ["soft"])) pad pad pad pad
        7) "GetX" [] (authSt "Admin" "pw" "K" "C" ["X"])).2.logins = 0 ∧
    (callA 8 (env5 (.ok (mkResp false "" "" "" "" ["soft"])) pad pad pad pad
        7) "GetX" [] (authSt "Admin" "pw" "K" "C" ["X"])).2.calls.map
          (fun cc => cc.method) = ["GetX"] ∧
    (callA 8 (env5 (.ok (mkResp true "" "" "" "" []))
        (.ok (mkResp false "" "ch" "pk" "ck" []))
        (.ok (mkResp false "success" "" "" "" []))
        (.ok (mkResp false "" "" "" "" ["g2"])) pad 7) "GetX" []
        (authSt "Admin" "pw" "K" "C" ["X"])).1 =
      liftT (.ok (mkResp false "" "" "" "" ["g2"])) ∧
    (callA 8 (env5 (.ok (mkResp true "" "" "" "" []))
        (.ok (mkResp false "" "ch" "pk" "ck" []))
        (.ok (mkResp false "success" "" "" "" []))
        (.ok (mkResp false "" "" "" "" ["g2"])) pad 7) "GetX" []
        (authSt "Admin" "pw" "K" "C" ["X"])).2.logins = 1 ∧
    (callA 8 (env5 (.ok (mkResp true "" "" "" "" []))
        (.ok (mkResp false "" "ch" "pk" "ck" []))
        (.ok (mkResp false "success" "" "" "" []))
        (.ok (mkResp false "" "" "" "" ["g2"])) pad 7) "GetX" []
        (authSt "Admin" "pw" "K" "C" ["X"])).2.calls.map
          (fun cc => (cc.method, cc.params)) =
      [("GetX", []), ("Login", loginRequestParams "Admin"),
       ("Login", loginLoginParams "Admin"
         (_hmac (_hmac ("pk" ++ "pw") "ch") "ch")),
       ("GetX", [])] :=
  C2_amended_body_triggers_relogin "GetX" []
    (mkResp false "" "" "" "" ["soft"]) (mkResp true "" "" "" "" [])
    "K" "C" ["X"] (mkResp false "" "ch" "pk" "ck" [])
    (mkResp false "success" "" "" "" [])
    (.ok (mkResp false "" "" "" "" ["g2"])) 7
    (by decide) (by decide) (by decide) (by decide) (by decide)
    (by decide) (by decide) (by decide) (by decide)

/-- C3 counterexample: after a session-invalidation signal (a parse error
on the first attempt), the re-run handshake's initial `Login` request is
issued WITH the stale `Cookie` header (`uid=C`) and WITH an `HNAP_AUTH`
header derived from the stale private key `K` — the stored session secrets
are not cleared before `login()` is re-run. -/
theorem C3_counterexample :
    (callA 8 (env5 (.err .expatError) (.ok (mkResp false "" "ch" "pk" "ck"
        [])) (.ok (mkResp false "success" "" "" "" []))
        (.ok (mkResp false "" "" "" "" [])) pad 7) "GetX" []
        (authSt "Admin" "pw" "K" "C" ["X"])).2.calls.get? 1 =
      some { method := "Login"
             params := loginRequestParams "Admin"
             cookieHeader := some ("uid=" ++ "C")
             authHeader := some (authTok "K" "Login" 7)
             idx := 1 } ∧
    (callA 8 (env5 (.err .expatError) (.ok (mkResp false "" "ch" "pk" "ck"
        [])) (.ok (mkResp false "success" "" "" "" []))
        (.ok (mkResp false "" "" "" "" [])) pad 7) "GetX" []
        (authSt "Admin" "pw" "K" "C" ["X"])).2.logins = 1 := by
  have h := relogin_after_err "GetX" [] .expatError "K" "C" ["X"]
    (mkResp false "" "ch" "pk" "ck" []) (mkResp false "success" "" "" "" [])
    (.ok (mkResp false "" "" "" "" [])) 7
    (by decide) (by decide) (by decide) (by decide) (by decide)
    (by decide) (by decide)
  refine ⟨?_, h.2.1⟩
  rw [h.2.2.2.2]
  rfl

/-- C3 amended: the session secrets are NOT cleared on an invalidation
signal.  Only the first-ever handshake (no stored secrets) issues its
initial `Login` request without the `Cookie` and `HNAP_AUTH` headers; a
re-login triggered by an invalidation signal issues its initial `Login`
request with both headers, derived from the stale cookie and stale private
key. -/
theorem C3_amended_stale_headers_on_relogin
    (u pw : String) (r1 r2 r3 : Response) (t : Nat)
    (A : String) (ps : List (String × String)) (e : TErr) (k c : String)
    (acts : List String) (q1 q2 : Response) (res2 : TResult) (t2 : Nat)
    (hb1 : r1.hasBody = false) (hb2 : r2.hasBody = false)
    (hb3 : r3.hasBody = false) (hck : r1.cookie ≠ "")
    (hs : lowerString r2.loginResult = "success")
    (hk : k ≠ "") (hc : c ≠ "") (hacts : acts ≠ [])
    (hq1 : q1.hasBody = false) (hq2 : q2.hasBody = false)
    (hqck : q1.cookie ≠ "")
    (hqs : lowerString q2.loginResult = "success") :
    ((login 8 (env5 (.ok r1) (.ok r2) (.ok r3) pad pad t)
        (freshSt u pw)).2.calls.head?).map
      (fun cc => (cc.method, cc.cookieHeader, cc.authHeader)) =
      some ("Login", none, none) ∧
    (callA 8 (env5 (.err e) (.ok q1) (.ok q2) res2 pad t2) A ps
        (authSt "Admin" "pw" k c acts)).2.calls.get? 1 =
      some { method := "Login"
             params := loginRequestParams "Admin"
             cookieHeader := some ("uid=" ++ c)
             authHeader := some (authTok k "Login" t2)
             idx := 1 } := by
  have ha := login_fresh_run u pw r1 r2 r3 t hb1 hb2 hb3 hck hs
  have hb := relogin_after_err A ps e k c acts q1 q2 res2 t2
    hk hc hacts hq1 hq2 hqck hqs
  constructor
  · rw [ha.2.2.2.2.2.2]
    rfl
  · rw [hb.2.2.2.2]
    rfl

/-- Witness for the amended C3 at concrete inputs. -/
theorem C3_amended_stale_headers_on_relogin_witness :
    ((login 8 (env5 (.ok (mkResp false "" "ch" "pk" "ck" []))
        (.ok (mkResp false "success" "" "" "" []))
        (.ok (mkResp false "" "" "" "" ["a/B"])) pad pad 7)
        (freshSt "Admin" "pw")).2.calls.head?).map
      (fun cc => (cc.method, cc.cookieHeader, cc.authHeader)) =
      some ("Login", none, none) ∧
    (callA 8 (env5 (.err .urlError) (.ok (mkResp false "" "ch" "pk" "ck"
        [])) (.ok (mkResp false "success" "" "" "" []))
        (.ok (mkResp false "" "" "" "" [])) pad 9) "GetX" []
        (authSt "Admin" "pw" "K" "C" ["X"])).2.calls.get? 1 =
      some { method := "Login"
             params := loginRequestParams "Admin"
             cookieHeader := some ("uid=" ++ "C")
             authHeader := some (authTok "K" "Login" 9)
             idx := 1 } :=
  C3_amended_stale_headers_on_relogin "Admin" "pw"
    (mkResp false "" "ch" "pk" "ck" []) (mkResp false "success" "" "" "" [])
    (mkResp false "" "" "" "" ["a/B"]) 7 "GetX" [] .urlError "K" "C" ["X"]
    (mkResp false "" "ch" "pk" "ck" []) (mkResp false "success" "" "" "" [])
    (.ok (mkResp false "" "" "" "" [])) 9
    (by decide) (by decide) (by decide) (by decide) (by decide)
    (by decide) (by decide) (by decide) (by decide) (by decide)
    (by decide) (by decide)

/-- C7 counterexample: a re-login after an invalidation signal completes a
new successful handshake (`logged_in` is set, one `login()` entered), yet
the `SupportedActions` cache populated under the PRIOR session is retained
(`some ["A0"]`) and no fresh `GetDeviceSettings` discovery call is made. -/
theorem C7_counterexample :
    (callA 8 (env5 (.err .expatError) (.ok (mkResp false "" "ch" "pk" "ck"
        [])) (.ok (mkResp false "success" "" "" "" []))
        (.ok (mkResp false "" "" "" "" [])) pad 7) "GetX" []
        (authSt "Admin" "pw" "K" "C" ["A0"])).2.client.actions =
      some ["A0"] ∧
    (callA 8 (env5 (.err .expatError) (.ok (mkResp false "" "ch" "pk" "ck"
        [])) (.ok (mkResp false "success" "" "" "" []))
        (.ok (mkResp false "" "" "" "" [])) pad 7) "GetX" []
        (authSt "Admin" "pw" "K" "C" ["A0"])).2.client.logged_in = true ∧
    (callA 8 (env5 (.err .expatError) (.ok (mkResp false "" "ch" "pk" "ck"
        [])) (.ok (mkResp false "success" "" "" "" []))
        (.ok (mkResp false "" "" "" "" [])) pad 7) "GetX" []
        (authSt "Admin" "pw" "K" "C" ["A0"])).2.logins = 1 ∧
    (callA 8 (env5 (.err .expatError) (.ok (mkResp false "" "ch" "pk" "ck"
        [])) (.ok (mkResp false "success" "" "" "" []))
        (.ok (mkResp false "" "" "" "" [])) pad 7) "GetX" []
        (authSt "Admin" "pw" "K" "C" ["A0"])).2.calls.map
          (fun cc => cc.method) = ["GetX", "Login", "Login", "GetX"] := by
  have h := relogin_after_err "GetX" [] .expatError "K" "C" ["A0"]
    (mkResp false "" "ch" "pk" "ck" []) (mkResp false "success" "" "" "" [])
    (.ok (mkResp false "" "" "" "" [])) 7
    (by decide) (by decide) (by decide) (by decide) (by decide)
    (by decide) (by decide)
  refine ⟨h.2.2.1, h.2.2.2.1, h.2.1, ?_⟩
  rw [h.2.2.2.2]
  rfl

/-- C7 amended: `login()` re-runs discovery only when the cached `actions`
value is falsy (`None` or `[]`).  A fresh handshake populates the cache
from a `GetDeviceSettings` call; a re-login with a populated cache
completes without any discovery call and retains the stale cache. -/
theorem C7_amended_cache_survives_relogin
    (A : String) (ps : List (String × String)) (e : TErr) (k c : String)
    (acts : List String) (q1 q2 : Response) (res2 : TResult) (t2 : Nat)
    (u pw : String) (r1 r2 r3 : Response) (t : Nat)
    (hk : k ≠ "") (hc : c ≠ "") (hacts : acts ≠ [])
    (hq1 : q1.hasBody = false) (hq2 : q2.hasBody = false)
    (hqck : q1.cookie ≠ "") (hqs : lowerString q2.loginResult = "success")
    (hb1 : r1.hasBody = false) (hb2 : r2.hasBody = false)
    (hb3 : r3.hasBody = false) (hck : r1.cookie ≠ "")
    (hs : lowerString r2.loginResult = "success") :
    (callA 8 (env5 (.err e) (.ok q1) (.ok q2) res2 pad t2) A ps
        (authSt "Admin" "pw" k c acts)).2.client.actions = some acts ∧
    (callA 8 (env5 (.err e) (.ok q1) (.ok q2) res2 pad t2) A ps
        (authSt "Admin" "pw" k c acts)).2.client.logged_in = true ∧
    (callA 8 (env5 (.err e) (.ok q1) (.ok q2) res2 pad t2) A ps
        (authSt "Admin" "pw" k c acts)).2.logins = 1 ∧
    (callA 8 (env5 (.err e) (.ok q1) (.ok q2) res2 pad t2) A ps
        (authSt "Admin" "pw" k c acts)).2.calls.map
          (fun cc => cc.method) = [A, "Login", "Login", A] ∧
    (login 8 (env5 (.ok r1) (.ok r2) (.ok r3) pad pad t)
        (freshSt u pw)).2.client.actions =
      some (r3.soapActions.map extract) ∧
    (login 8 (env5 (.ok r1) (.ok r2) (.ok r3) pad pad t)
        (freshSt u pw)).2.calls.map (fun cc => cc.method) =
      ["Login", "Login", "GetDeviceSettings"] := by
  have ha := relogin_after_err A ps e k c acts q1 q2 res2 t2
    hk hc hacts hq1 hq2 hqck hqs
  have hb := login_fresh_run u pw r1 r2 r3 t hb1 hb2 hb3 hck hs
  refine ⟨ha.2.2.1, ha.2.2.2.1, ha.2.1, ?_, hb.2.2.2.1, ?_⟩
  · rw [ha.2.2.2.2]; rfl
  · rw [hb.2.2.2.2.2.2]; rfl

/-- Witness for the amended C7 at concrete inputs. -/
theorem C7_amended_cache_survives_relogin_witness :
    (callA 8 (env5 (.err .expatError) (.ok (mkResp false "" "ch" "pk" "ck"
        [])) (.ok (mkResp false "success" "" "" "" []))
        (.ok (mkResp false "" "" "" "" [])) pad 7) "GetY" []
        (authSt "Admin" "pw" "K" "C" ["A0"])).2.client.actions =
      some ["A0"] ∧
    (callA 8 (env5 (.err .expatError) (.ok (mkResp false "" "ch" "pk" "ck"
        [])) (.ok (mkResp false "success" "" "" "" []))
        (.ok (mkResp false "" "" "" "" [])) pad 7) "GetY" []
        (authSt "Admin" "pw" "K" "C" ["A0"])).2.client.logged_in = true ∧
    (callA 8 (env5 (.err .expatError) (.ok (mkResp false "" "ch" "pk" "ck"
        [])) (.ok (mkResp false "success" "" "" "" []))
        (.ok (mkResp false "" "" "" "" [])) pad 7) "GetY" []
        (authSt "Admin" "pw" "K" "C" ["A0"])).2.logins = 1 ∧
    (callA 8 (env5 (.err .expatError) (.ok (mkResp false "" "ch" "pk" "ck"
        [])) (.ok (mkResp false "success" "" "" "" []))
        (.ok (mkResp false "" "" "" "" [])) pad 7) "GetY" []
        (authSt "Admin" "pw" "K" "C" ["A0"])).2.calls.map
          (fun cc => cc.method) = ["GetY", "Login", "Login", "GetY"] ∧
    (login 8 (env5 (.ok (mkResp false "" "ch" "pk" "ck" []))
        (.ok (mkResp false "success" "" "" "" []))
        (.ok (mkResp false "" "" "" "" ["a/B", "C2"])) pad pad 3)
        (freshSt "Admin" "pw")).2.client.actions =
      some (["a/B", "C2"].map extract) ∧
    (login 8 (env5 (.ok (mkResp false "" "ch" "pk" "ck" []))
        (.ok (mkResp false "success" "" "" "" []))
        (.ok (mkResp false "" "" "" "" ["a/B", "C2"])) pad pad 3)
        (freshSt "Admin" "pw")).2.calls.map (fun cc => cc.method) =
      ["Login", "Login", "GetDeviceSettings"] :=
  C7_amended_cache_survives_relogin "GetY" [] .expatError "K" "C" ["A0"]
    (mkResp false "" "ch" "pk" "ck" []) (mkResp false "success" "" "" "" [])
    (.ok (mkResp false "" "" "" "" [])) 7 "Admin" "pw"
    (mkResp false "" "ch" "pk" "ck" []) (mkResp false "success" "" "" "" [])
    (mkResp false "" "" "" "" ["a/B", "C2"]) 3
    (by decide) (by decide) (by decide) (by decide) (by decide)
    (by decide) (by decide) (by decide) (by decide) (by decide)
    (by decide) (by decide)

/-- C8 counterexample: two consecutive `device_actions()` invocations in
one authenticated session issue the `GetDeviceSettings` transport call
TWICE; the second invocation is answered by the transport (yielding
`ActY`, different from the first invocation's `ActX`), not by any cache. -/
theorem C8_counterexample :
    (device_actions 8 (env5 (.ok (mkResp false "" "" "" "" ["a/ActX"]))
        (.ok (mkResp false "" "" "" "" ["b/ActY"])) pad pad pad 7)
        (authSt "Admin" "pw" "K" "C" ["X"])).1 =
      .ok (["a/ActX"].map extract) ∧
    (device_actions 8 (env5 (.ok (mkResp false "" "" "" "" ["a/ActX"]))
        (.ok (mkResp false "" "" "" "" ["b/ActY"])) pad pad pad 7)
        ((device_actions 8 (env5 (.ok (mkResp false "" "" "" "" ["a/ActX"]))
          (.ok (mkResp false "" "" "" "" ["b/ActY"])) pad pad pad 7)
          (authSt "Admin" "pw" "K" "C" ["X"])).2)).1 =
      .ok (["b/ActY"].map extract) ∧
    (device_actions 8 (env5 (.ok (mkResp false "" "" "" "" ["a/ActX"]))
        (.ok (mkResp false "" "" "" "" ["b/ActY"])) pad pad pad 7)
        ((device_actions 8 (env5 (.ok (mkResp false "" "" "" "" ["a/ActX"]))
          (.ok (mkResp false "" "" "" "" ["b/ActY"])) pad pad pad 7)
          (authSt "Admin" "pw" "K" "C" ["X"])).2)).2.calls.map
        (fun cc => cc.method) =
      ["GetDeviceSettings", "GetDeviceSettings"] ∧
    ["a/ActX"].map extract = ["ActX"] ∧
    ["b/ActY"].map extract = ["ActY"] := by
  refine ⟨?_, ?_, ?_, by decide, by decide⟩
  all_goals
    simp [device_actions, callA, andThen, call_method, update_nauth_token,
      headersOf, env5, authSt, strTruthy, liftT, _hmac_ne, mkResp]

/-- C8 amended: `device_actions()` has no read-through cache: every
invocation issues its own `GetDeviceSettings` transport call, so two
invocations within one authenticated session issue it twice (the cached
`actions` attribute is consulted only inside `login()`). -/
theorem C8_amended_no_readthrough_cache (k c : String)
    (acts : List String) (r1 r2 : Response) (t : Nat)
    (hk : k ≠ "") (hc : c ≠ "")
    (hb1 : r1.hasBody = false) (hb2 : r2.hasBody = false) :
    (device_actions 8 (env5 (.ok r1) (.ok r2) pad pad pad t)
        (authSt "Admin" "pw" k c acts)).1 =
      .ok (r1.soapActions.map extract) ∧
    (device_actions 8 (env5 (.ok r1) (.ok r2) pad pad pad t)
        ((device_actions 8 (env5 (.ok r1) (.ok r2) pad pad pad t)
          (authSt "Admin" "pw" k c acts)).2)).1 =
      .ok (r2.soapActions.map extract) ∧
    (device_actions 8 (env5 (.ok r1) (.ok r2) pad pad pad t)
        ((device_actions 8 (env5 (.ok r1) (.ok r2) pad pad pad t)
          (authSt "Admin" "pw" k c acts)).2)).2.calls.map
        (fun cc => cc.method) =
      ["GetDeviceSettings", "GetDeviceSettings"] := by
  refine ⟨?_, ?_, ?_⟩
  all_goals
    simp [device_actions, callA, andThen, call_method, update_nauth_token,
      headersOf, env5, authSt, strTruthy, hk, hc, hb1, hb2, liftT,
      _hmac_ne]

/-- Witness for the amended C8 at concrete inputs. -/
theorem C8_amended_no_readthrough_cache_witness :
    (device_actions 8 (env5 (.ok (mkResp false "" "" "" "" ["u/V"]))
        (.ok (mkResp false "" "" "" "" ["w"])) pad pad pad 5)
        (authSt "Admin" "pw" "K" "C" ["X"])).1 =
      .ok (["u/V"].map extract) ∧
    (device_actions 8 (env5 (.ok (mkResp false "" "" "" "" ["u/V"]))
        (.ok (mkResp false "" "" "" "" ["w"])) pad pad pad 5)
        ((device_actions 8 (env5 (.ok (mkResp false "" "" "" "" ["u/V"]))
          (.ok (mkResp false "" "" "" "" ["w"])) pad pad pad 5)
          (authSt "Admin" "pw" "K" "C" ["X"])).2)).1 =
      .ok (["w"].map extract) ∧
    (device_actions 8 (env5 (.ok (mkResp false "" "" "" "" ["u/V"]))
        (.ok (mkResp false "" "" "" "" ["w"])) pad pad pad 5)
        ((device_actions 8 (env5 (.ok (mkResp false "" "" "" "" ["u/V"]))
          (.ok (mkResp false "" "" "" "" ["w"])) pad pad pad 5)
          (authSt "Admin" "pw" "K" "C" ["X"])).2)).2.calls.map
        (fun cc => cc.method) =
      ["GetDeviceSettings", "GetDeviceSettings"] :=
  C8_amended_no_readthrough_cache "K" "C" ["X"]
    (mkResp false "" "" "" "" ["u/V"]) (mkResp false "" "" "" "" ["w"]) 5
    (by decide) (by decide) (by decide) (by decide)

/-- Framing: `_update_nauth_token` touches only the token and timestamp,
never the instrumentation counters. -/
theorem update_nauth_token_logins (env : Env) (a : String) (st : St) :
    (update_nauth_token env a st).logins = st.logins := by
  unfold update_nauth_token
  cases st.client.private_key with
  | none => rfl
  | some k =>
    by_cases hk : k = "" <;> simp [hk]

/-- Framing: one transport invocation never changes the login counter. -/
theorem call_method_logins (env : Env) (m : String)
    (p : List (String × String)) (st : St) :
    (call_method env m p st).2.logins = st.logins := by
  simp [call_method, update_nauth_token_logins]

/-- Against `badEnv`, a transport invocation always raises `ExpatError`. -/
theorem call_method_badEnv_fst (m : String) (p : List (String × String))
    (st : St) : (call_method badEnv m p st).1 = .err .expatError := by
  simp [call_method, badEnv]

/-- Joint strong induction for C6: against a transport whose every call
fails with a parse error, `login` and the nested `call('Login', ...)`
never terminate for ANY fuel (they re-enter each other forever), and the
number of `login()` entries grows linearly with the available fuel. -/
theorem badEnv_login_diverges (fuel : Nat) :
    (∀ st : St, (login fuel badEnv st).1 = .fuelOut ∧
      (login fuel badEnv st).2.logins = st.logins + (fuel + 1) / 2) ∧
    (∀ (ps : List (String × String)) (st : St),
      (callA fuel badEnv "Login" ps st).1 = .fuelOut ∧
      (callA fuel badEnv "Login" ps st).2.logins =
        st.logins + fuel / 2) := by
  induction fuel using Nat.strong_induction_on with
  | _ fuel ih =>
    by_cases h0 : fuel = 0
    · subst h0
      exact ⟨fun st => by simp [login], fun ps st => by simp [callA]⟩
    · have hlt : fuel - 1 < fuel := by omega
      have ihl := (ih (fuel - 1) hlt).1
      have ihc := (ih (fuel - 1) hlt).2
      constructor
      · intro st
        constructor
        · simp [login, h0, andThen, ihc]
        · simp [login, h0, andThen, ihc]
          omega
      · intro ps st
        constructor
        · simp [callA, h0, andThen, call_method_badEnv_fst, ihl]
        · simp [callA, h0, andThen, call_method_badEnv_fst, ihl,
            call_method_logins]
          omega

/-- C6 (code bug): when the `Login` transport call itself persistently
fails with a caught exception class, `login()` does NOT raise
`AuthenticationError` exactly once — `call` catches the failure and
re-enters `login()`, which re-enters `call('Login', ...)`, recursing
without bound: the run exhausts every fuel, with `login()` entered
`(fuel + 1) / 2` times. -/
theorem C6_relogin_recursion_diverges (fuel : Nat) (st : St) :
    (login fuel badEnv st).1 = .fuelOut ∧
    (login fuel badEnv st).2.logins = st.logins + (fuel + 1) / 2 :=
  (badEnv_login_diverges fuel).1 st

/-- C10: a successful `device_actions` run maps every entry of the
response's `SOAPActions` children through `_extract`, preserving order;
`_extract` returns the substring after the last `'/'`, and the whole
string when there is no `'/'` at all. -/
theorem C10_extract_after_last_slash (r : Response) (t : Nat)
    (hb : r.hasBody = false) :
    (device_actions 8 (env5 (.ok r) pad pad pad pad t)
        (authSt "Admin" "pw" "K" "C" ["X"])).1 =
      .ok (r.soapActions.map extract) ∧
    (∀ s : String, '/' ∉ s.data → extract s = s) ∧
    (∀ s : String, '/' ∈ s.data →
      ∃ pre, s.data = pre ++ '/' :: (extract s).data ∧
        '/' ∉ (extract s).data) := by
  refine ⟨?_, extract_no_slash, extract_last_slash⟩
  simp [device_actions, callA, andThen, call_method, update_nauth_token,
    headersOf, env5, authSt, strTruthy, hb, _hmac_ne]

/-- Witness for C10 at concrete inputs. -/
theorem C10_extract_after_last_slash_witness :
    (device_actions 8 (env5 (.ok (mkResp false "" "" "" ""
          ["http://purenetworks.com/HNAP1/GetX", "NoSlash"]))
        pad pad pad pad 7)
        (authSt "Admin" "pw" "K" "C" ["X"])).1 =
      .ok (["http://purenetworks.com/HNAP1/GetX", "NoSlash"].map extract) ∧
    (∀ s : String, '/' ∉ s.data → extract s = s) ∧
    (∀ s : String, '/' ∈ s.data →
      ∃ pre, s.data = pre ++ '/' :: (extract s).data ∧
        '/' ∉ (extract s).data) :=
  C10_extract_after_last_slash
    (mkResp false "" "" "" ""
      ["http://purenetworks.com/HNAP1/GetX", "NoSlash"])
    7 (by decide)

end DlinkHNAP
